import Mathlib

/-!
# User_Setup.h: the display configuration header

The header is a flat sequence of preprocessor lines.  It is embedded line by
line as a list of `Line`s (blank lines, comment lines and `#define`
directives, in source order), together with the small part of the
preprocessor a reader of the header needs: which object-like macros are
defined, and what each one is replaced by.  The configuration record the
consuming library sees is read off that list by `readConfig`.
-/

namespace UserSetup

/-- Replacement list of an object-like macro, as far as the header uses it:
nothing, one integer constant, or one identifier. -/
inductive Body where
  | empty : Body
  | int (value : Int) : Body
  | ident (name : String) : Body
  deriving DecidableEq, Repr

/-- One physical line of the header. -/
inductive Line where
  | blank : Line
  | comment (text : String) : Line
  | define (name : String) (body : Body) (trailing : String) : Line
  deriving DecidableEq, Repr

/-- Lines 1 to 34 of `User_Setup.h`, in order.  The text of a `//` comment
that follows a directive on its line is kept in `trailing` (empty when the
line has none). -/
def User_Setup : List Line :=
  [ .comment " ==========================================",
    .comment " FISIER: User_Setup.h",
    .comment " ==========================================",
    .blank,
    .define "ST7789_DRIVER" .empty "",
    .define "TFT_WIDTH" (.int 240) "",
    .define "TFT_HEIGHT" (.int 320) "",
    .blank,
    .comment " --- PINI ECRAN (VSPI) ---",
    .define "TFT_MISO" (.int (-1)) "",
    .define "TFT_MOSI" (.int 23) "",
    .define "TFT_SCLK" (.int 18) "",
    .define "TFT_CS" (.int 15) "",
    .define "TFT_DC" (.int 2) "",
    .define "TFT_RST" (.int 32) " <--- AICI ERA PROBLEMA (TREBUIE 32, NU 4)",
    .blank,
    .comment " --- CONFIGURARE CULORI ---",
    .define "TFT_RGB_ORDER" (.ident "TFT_BGR") "",
    .define "TFT_INVERSION_ON" .empty "",
    .blank,
    .comment " --- FONTURI ---",
    .define "LOAD_GLCD" .empty "",
    .define "LOAD_FONT2" .empty "",
    .define "LOAD_FONT4" .empty "",
    .define "LOAD_FONT6" .empty "",
    .define "LOAD_FONT7" .empty "",
    .define "LOAD_FONT8" .empty "",
    .define "SMOOTH_FONT" .empty "",
    .blank,
    .comment " --- VITEZA ---",
    .define "SPI_FREQUENCY" (.int 30000000) "",
    .blank,
    .comment " Touch-ul il gestionam manual in cod, deci lasam comentat aici:",
    .comment " #define TOUCH_CS ..." ]

/-- The macro definitions a list of lines makes, in order: comment lines and
blank lines define nothing, and a comment after a directive is not part of
its replacement list. -/
def definitions : List Line → List (String × Body)
  | [] => []
  | .define name body _ :: rest => (name, body) :: definitions rest
  | .blank :: rest => definitions rest
  | .comment _ :: rest => definitions rest

/-- Names of the macros a list of lines defines, in order. -/
def definedNames (ls : List Line) : List String :=
  (definitions ls).map Prod.fst

/-- The test `#ifdef name` (equivalently `defined(name)`) after the lines. -/
def isDefined (ls : List Line) (name : String) : Bool :=
  (definedNames ls).contains name

/-- Replacement list of `name` after the lines, `none` when it is not
defined. -/
def lookup (ls : List Line) (name : String) : Option Body :=
  ((definitions ls).find? (fun d => d.1 == name)).map Prod.snd

/-- Value of a macro that expands to one integer constant. -/
def intValue (ls : List Line) (name : String) : Option Int :=
  match lookup ls name with
  | some (.int v) => some v
  | _ => none

/-- Channel order a panel can be told to expect. -/
inductive ColorOrder where
  | RGB : ColorOrder
  | BGR : ColorOrder
  deriving DecidableEq, Repr

/-- Channel order selected by `TFT_RGB_ORDER`: the header names it by one of
the two identifiers `TFT_RGB` and `TFT_BGR`. -/
def colorOrder (ls : List Line) : Option ColorOrder :=
  match lookup ls "TFT_RGB_ORDER" with
  | some (.ident name) =>
      if name = "TFT_BGR" then some .BGR
      else if name = "TFT_RGB" then some .RGB
      else none
  | _ => none

/-- Bitmap font table options are the names spelled `LOAD_...`. -/
def isFontFlag (name : String) : Bool :=
  "LOAD_".toList.isPrefixOf name.toList

/-- Panel controller options are the names spelled `..._DRIVER`. -/
def isDriverOption (name : String) : Bool :=
  "_DRIVER".toList.isSuffixOf name.toList

/-- The flat configuration record the consuming library reads from the
header.  A numeric field is `none` when its macro is not defined. -/
structure Config where
  driver_kind : List String
  width : Option Int
  height : Option Int
  pin_miso : Option Int
  pin_mosi : Option Int
  pin_sclk : Option Int
  pin_cs : Option Int
  pin_dc : Option Int
  pin_rst : Option Int
  color_order : Option ColorOrder
  inversion_enabled : Bool
  enabled_fonts : List String
  smooth_font_enabled : Bool
  spi_frequency_hz : Option Int
  touch_cs : Option Body
  deriving DecidableEq, Repr

/-- Reading of the record off a list of header lines, one field per macro. -/
def readConfig (ls : List Line) : Config where
  driver_kind := (definedNames ls).filter isDriverOption
  width := intValue ls "TFT_WIDTH"
  height := intValue ls "TFT_HEIGHT"
  pin_miso := intValue ls "TFT_MISO"
  pin_mosi := intValue ls "TFT_MOSI"
  pin_sclk := intValue ls "TFT_SCLK"
  pin_cs := intValue ls "TFT_CS"
  pin_dc := intValue ls "TFT_DC"
  pin_rst := intValue ls "TFT_RST"
  color_order := colorOrder ls
  inversion_enabled := isDefined ls "TFT_INVERSION_ON"
  enabled_fonts := (definedNames ls).filter isFontFlag
  smooth_font_enabled := isDefined ls "SMOOTH_FONT"
  spi_frequency_hz := intValue ls "SPI_FREQUENCY"
  touch_cs := lookup ls "TOUCH_CS"

/-- The fixed configuration: the record `User_Setup.h` defines. -/
def config : Config := readConfig User_Setup

/-- The pin numbers an output line may use on the ESP32, the board whose
VSPI bus the header names: 0 to 33 (34 to 39 are input-only), without 6 to 11
(wired to the on-module flash).  The header does not state this set; it is the
property the pins are checked against. -/
def validOutputGpio (pin : Int) : Bool :=
  decide (0 ≤ pin) && decide (pin ≤ 33) && !(decide (6 ≤ pin) && decide (pin ≤ 11))

end UserSetup

/-! ## Facts about the header used by several results -/

namespace UserSetup

/-- The header defines these nineteen names and no other. -/
theorem definedNames_User_Setup :
    definedNames User_Setup =
      ["ST7789_DRIVER", "TFT_WIDTH", "TFT_HEIGHT",
       "TFT_MISO", "TFT_MOSI", "TFT_SCLK", "TFT_CS", "TFT_DC", "TFT_RST",
       "TFT_RGB_ORDER", "TFT_INVERSION_ON",
       "LOAD_GLCD", "LOAD_FONT2", "LOAD_FONT4", "LOAD_FONT6", "LOAD_FONT7",
       "LOAD_FONT8", "SMOOTH_FONT", "SPI_FREQUENCY"] := by
  decide

/-- No name is defined twice, so `lookup` does not depend on which definition
of a name it returns. -/
theorem definedNames_User_Setup_nodup : (definedNames User_Setup).Nodup := by
  decide

/-- The test `isDefined` is membership in the list of defined names. -/
theorem isDefined_iff_mem (ls : List Line) (name : String) :
    isDefined ls name = true ↔ name ∈ definedNames ls := by
  simp [isDefined]

/-- Appending a comment line after a header changes none of its definitions:
a commented-out directive has no effect. -/
theorem definitions_append_comment (ls : List Line) (text : String) :
    definitions (ls ++ [.comment text]) = definitions ls := by
  induction ls with
  | nil => rfl
  | cons l rest ih => cases l <;> simp [definitions, ih]

/-- What `validOutputGpio` tests, as a proposition. -/
theorem validOutputGpio_iff (pin : Int) :
    validOutputGpio pin = true ↔ (0 ≤ pin ∧ pin ≤ 33) ∧ ¬ (6 ≤ pin ∧ pin ≤ 11) := by
  simp only [validOutputGpio, Bool.and_eq_true, Bool.not_eq_true', decide_eq_true_eq,
    Bool.and_eq_false_imp, decide_eq_false_iff_not, not_and]

end UserSetup

/-! ## The configuration contract -/

namespace UserSetup

/-- C1: in the fixed configuration the bus and control pins are MOSI = 23,
SCLK = 18, CS = 15, DC = 2 and RST = 32; the reset pin is 32 and is not the
earlier, wrong value 4. -/
theorem C1_pin_assignment :
    config.pin_mosi = some 23 ∧ config.pin_sclk = some 18 ∧
    config.pin_cs = some 15 ∧ config.pin_dc = some 2 ∧
    config.pin_rst = some 32 ∧ config.pin_rst ≠ some 4 := by
  decide

/-- C2: in the fixed configuration `pin_miso` is the unused sentinel -1, and
the five required pins MOSI, SCLK, CS, DC, RST all have a value, each value
non-negative, the five pairwise distinct. -/
theorem C2_miso_unused_others_distinct :
    config.pin_miso = some (-1) ∧
    ∃ mosi sclk cs dc rst : Int,
      config.pin_mosi = some mosi ∧ config.pin_sclk = some sclk ∧
      config.pin_cs = some cs ∧ config.pin_dc = some dc ∧
      config.pin_rst = some rst ∧
      (0 ≤ mosi ∧ 0 ≤ sclk ∧ 0 ≤ cs ∧ 0 ≤ dc ∧ 0 ≤ rst) ∧
      [mosi, sclk, cs, dc, rst].Pairwise (fun a b => a ≠ b) :=
  ⟨by decide, 23, 18, 15, 2, 32, by decide⟩

/-- C3: in the fixed configuration the width is 240 and the height is 320,
both at once, the width being the smaller of the two. -/
theorem C3_panel_geometry :
    ∃ w h : Int, config.width = some w ∧ config.height = some h ∧
      w = 240 ∧ h = 320 ∧ w < h :=
  ⟨240, 320, by decide⟩

/-- C4: in the fixed configuration the enabled bitmap fonts are exactly GLCD,
FONT2, FONT4, FONT6, FONT7 and FONT8: a font option is defined by the header
if and only if it is one of these six, and smooth-font rendering is enabled
too. -/
theorem C4_enabled_fonts :
    config.enabled_fonts =
      ["LOAD_GLCD", "LOAD_FONT2", "LOAD_FONT4", "LOAD_FONT6", "LOAD_FONT7",
       "LOAD_FONT8"] ∧
    (∀ name : String,
      (isFontFlag name = true ∧ isDefined User_Setup name = true) ↔
        name ∈ ["LOAD_GLCD", "LOAD_FONT2", "LOAD_FONT4", "LOAD_FONT6",
                "LOAD_FONT7", "LOAD_FONT8"]) ∧
    config.smooth_font_enabled = true := by
  refine ⟨by decide, ?_, by decide⟩
  intro name
  rw [isDefined_iff_mem, definedNames_User_Setup]
  constructor
  · rintro ⟨hfont, hmem⟩
    simp only [List.mem_cons, List.mem_singleton, List.not_mem_nil, or_false] at hmem
    rcases hmem with h | h | h | h | h | h | h | h | h | h | h | h | h | h | h | h | h | h | h <;>
      subst h <;> first
        | (exact absurd hfont (by decide))
        | decide
  · intro hmem
    simp only [List.mem_cons, List.mem_singleton, List.not_mem_nil, or_false] at hmem
    rcases hmem with h | h | h | h | h | h <;> subst h <;> decide

/-- C5: in the fixed configuration the colour order is BGR, not RGB, and
colour inversion is on, both at once. -/
theorem C5_bgr_and_inversion :
    config.color_order = some ColorOrder.BGR ∧
    config.color_order ≠ some ColorOrder.RGB ∧
    config.inversion_enabled = true := by
  decide

/-- C6: in the fixed configuration the SPI clock is exactly 30,000,000 Hz. -/
theorem C6_spi_frequency : config.spi_frequency_hz = some 30000000 := by
  decide

/-- C7: in the fixed configuration the touch chip-select is not configured:
`TOUCH_CS` is not defined, so it has no replacement at all, neither a pin
number nor the unused sentinel. -/
theorem C7_touch_cs_absent :
    isDefined User_Setup "TOUCH_CS" = false ∧
    config.touch_cs = none ∧
    (∀ pin : Int, config.touch_cs ≠ some (Body.int pin)) ∧
    intValue User_Setup "TOUCH_CS" = none := by
  refine ⟨by decide, by decide, ?_, by decide⟩
  intro pin
  have h : config.touch_cs = none := by decide
  rw [h]
  exact Option.noConfusion

/-- C8: in the fixed configuration the driver is ST7789 and no other panel
controller is selected: a driver option is defined by the header if and only
if it is `ST7789_DRIVER`. -/
theorem C8_single_driver :
    config.driver_kind = ["ST7789_DRIVER"] ∧
    (∀ name : String,
      (isDriverOption name = true ∧ isDefined User_Setup name = true) ↔
        name = "ST7789_DRIVER") := by
  refine ⟨by decide, ?_⟩
  intro name
  rw [isDefined_iff_mem, definedNames_User_Setup]
  constructor
  · rintro ⟨hdrv, hmem⟩
    simp only [List.mem_cons, List.mem_singleton, List.not_mem_nil, or_false] at hmem
    rcases hmem with h | h | h | h | h | h | h | h | h | h | h | h | h | h | h | h | h | h | h <;>
      subst h <;> first
        | rfl
        | (exact absurd hdrv (by decide))
  · intro h
    subst h
    decide

/-- C9: every pin of the fixed configuration other than `pin_miso` (MOSI,
SCLK, CS, DC, RST) has a value that is a valid output GPIO of the ESP32: it
lies in 0..33 and not in 6..11. -/
theorem C9_pins_valid_gpio :
    ∃ mosi sclk cs dc rst : Int,
      config.pin_mosi = some mosi ∧ config.pin_sclk = some sclk ∧
      config.pin_cs = some cs ∧ config.pin_dc = some dc ∧
      config.pin_rst = some rst ∧
      validOutputGpio mosi = true ∧ validOutputGpio sclk = true ∧
      validOutputGpio cs = true ∧ validOutputGpio dc = true ∧
      validOutputGpio rst = true :=
  ⟨23, 18, 15, 2, 32, by decide⟩

end UserSetup
